import Mathlib

/-!
Verification of the ceGUI layer of cx_PyGenLib: a shallow embedding of the
data-editing and container-control code (DataEditors.py and
ContainerControls.py) with proofs about its binding, lifecycle and
error-handling behaviour.

Rows of a result set are embedded as total maps from attribute names to
optional values, a value of none standing for the Python value None; widget
state is carried explicitly in the column-binding structure; methods that
mutate state are embedded as functions returning the new state, and methods
that can raise are embedded with Except.
-/

namespace CeGUI

/-- Attribute names of rows and of column bindings. -/
abbrev AttrName := String

/-- A row of a result set, as the edit dialogs see it through getattr and
DataSet.SetValue: a total map from attribute names to values; none models the
Python value None. -/
abbrev Row (V : Type) := AttrName → Option V

/-- DataSet.SetValue restricted to one row: write one attribute, leaving every
other attribute as it was. -/
def setAttr {V : Type} (row : Row V) (a : AttrName) (v : Option V) : Row V :=
  fun x => if x = a then v else row x

/-- A column binding (EditDialogColumn, DataEditors.py 264-302): one attribute
name, the bound widget field's current value (field.GetValue, none modelling
an empty field returning None), whether the field is editable and whether the
binding is required. -/
structure EditDialogColumn (V : Type) where
  attrName : AttrName
  value : Option V
  editable : Bool
  required : Bool

namespace EditDialogColumn

/-- IsEditable (DataEditors.py 277-280): whether the bound field accepts
input; the toolkit answer is carried as the editable flag. -/
def IsEditable {V : Type} (c : EditDialogColumn V) : Bool :=
  c.editable

/-- Verify (DataEditors.py 294-299): when the binding is required and the
field holds no value, the field receives focus and RequiredFieldHasNoValue is
raised; the error value carries the focused field's attribute name. -/
def Verify {V : Type} (c : EditDialogColumn V) : Except AttrName Unit :=
  if c.required then
    if c.value.isNone then Except.error c.attrName else Except.ok ()
  else Except.ok ()

/-- Update (DataEditors.py 290-292): write the widget's value into the data
set under the binding's attribute name. -/
def Update {V : Type} (c : EditDialogColumn V) (row : Row V) : Row V :=
  setAttr row c.attrName c.value

/-- SetValue (DataEditors.py 286-288): read the bound attribute from the row
into the widget. The method only calls field.SetValue, so the row is threaded
through as it came. -/
def SetValue {V : Type} (c : EditDialogColumn V) (row : Row V) :
    EditDialogColumn V × Row V :=
  ({ c with value := row c.attrName }, row)

end EditDialogColumn

/-- OnPreUpdate (DataEditors.py 411-415 and 507-511): for each column whose
field is editable, Verify and then Update; a verification failure propagates
at once, so the error carries the focused field's attribute name together with
the data set state already written by the columns before it. -/
def OnPreUpdate {V : Type} :
    List (EditDialogColumn V) → Row V → Except (AttrName × Row V) (Row V)
  | [], row => Except.ok row
  | c :: rest, row =>
      if c.IsEditable then
        match c.Verify with
        | Except.error a => Except.error (a, row)
        | Except.ok _ => OnPreUpdate rest (c.Update row)
      else OnPreUpdate rest row

/-- The three steps of an OK confirmation named in EditDialogBase.OnOk. -/
inductive DialogEvent where
  | preUpdate
  | update
  | postUpdate
deriving DecidableEq

/-- Outcome of EditDialogBase.OnOk: the data set row afterwards, the attribute
name of the field focused by a RequiredFieldHasNoValue error (none when no
error was raised), and the steps that actually ran, in order. -/
structure OnOkResult (V : Type) where
  row : Row V
  raised : Option AttrName
  events : List DialogEvent

/-- OnOk (DataEditors.py 449-452, reached from Dialog._OnOk): OnPreUpdate,
then dataSet.Update, then OnPostUpdate; an exception raised by OnPreUpdate
propagates, so the later two steps do not run. OnPostUpdate only feeds rows to
the external cache and leaves the data set alone. -/
def OnOk {V : Type} (cols : List (EditDialogColumn V)) (row : Row V) :
    OnOkResult V :=
  match OnPreUpdate cols row with
  | Except.error (a, row1) =>
      { row := row1, raised := some a, events := [DialogEvent.preUpdate] }
  | Except.ok row1 =>
      { row := row1, raised := none,
        events := [DialogEvent.preUpdate, DialogEvent.update,
                   DialogEvent.postUpdate] }

/-- Retrieve loop of DataEditPanel.Retrieve (DataEditors.py 417-425) and of
the EditDialog constructor (DataEditors.py 480-487): copy each bound attribute
from the row into its widget. -/
def retrieveColumns {V : Type} (cols : List (EditDialogColumn V))
    (row : Row V) : List (EditDialogColumn V) :=
  cols.map fun c => (c.SetValue row).1

/-- A list item or parent item as the editing code sees a Python object: the
attribute names it carries (hasattr) and getattr. -/
structure PyObj (V : Type) where
  attrNames : List AttrName
  getattr : AttrName → Option V

/-- A parent item handed to an edit dialog: its primary key attribute names
and getattr. -/
structure ParentItem (V : Type) where
  pkAttrNames : List AttrName
  getattr : AttrName → Option V

/-- Outcome of EditDialogBase.Retrieve: a freshly inserted row (no parent
item), the retrieved single-row set, or the NoDataFound error with the row set
that was actually retrieved. -/
inductive RetrieveOutcome (V : Type) where
  | inserted (row : Row V)
  | retrieved (rows : List (Row V))
  | noDataFound (rows : List (Row V))

/-- EditDialogBase.Retrieve (DataEditors.py 463-472): with no parent item a
new row is inserted and the OnNewRow hook fires, no error being possible;
otherwise the data set is retrieved with the parent item's primary key
attribute values and NoDataFound is raised exactly when the retrieved row
count differs from one. dbRetrieve abstracts DataSet.Retrieve of the external
data-access layer; newRow abstracts the row made by DataSet.InsertRow with
OnNewRow applied. -/
def EditDialogBase.Retrieve {V : Type} (parentItem : Option (ParentItem V))
    (dbRetrieve : List (Option V) → List (Row V)) (newRow : Row V) :
    RetrieveOutcome V :=
  match parentItem with
  | none => RetrieveOutcome.inserted newRow
  | some p =>
      let rows := dbRetrieve (p.pkAttrNames.map p.getattr)
      if rows.length ≠ 1 then RetrieveOutcome.noDataFound rows
      else RetrieveOutcome.retrieved rows

/-- DataList._OnEditItem (DataEditors.py 80-86): only when exactly one item is
selected is the sole selected index read, the item fetched and, when the item
may be edited, handed to OnEditItem. The result is the OnEditItem invocation;
none means nothing at all happened. -/
def DataList.onEditItemCall {V : Type} (selected : List Nat)
    (getItem : Nat → PyObj V) (canEditItem : PyObj V → Bool) :
    Option (PyObj V × Nat) :=
  if h : selected.length = 1 then
    let itemIndex := selected.get ⟨0, by omega⟩
    let item := getItem itemIndex
    if canEditItem item then some (item, itemIndex) else none
  else none

/-- Concrete column binding over natural-number values, for the concrete
evaluations below. -/
def colNat (a : AttrName) (v : Option Nat) (ed req : Bool) :
    EditDialogColumn Nat :=
  { attrName := a, value := v, editable := ed, required := req }

/-- Concrete two-attribute row, for the concrete evaluations below. -/
def rowAB : Row Nat :=
  fun a => if a = "alpha" then some 1 else if a = "beta" then some 2 else none

/-- C9: on commit, columns whose field is not editable are skipped entirely:
pre-update equals pre-update over the editable columns alone, and prepending a
non-editable column, even one that is required with an empty field, changes
nothing: it is never verified and its widget value is never written. -/
theorem claim_C9_noneditable_skipped {V : Type}
    (cols : List (EditDialogColumn V)) (row : Row V)
    (c : EditDialogColumn V) :
    OnPreUpdate cols row = OnPreUpdate (cols.filter fun x => x.editable) row ∧
    (c.editable = false → OnPreUpdate (c :: cols) row = OnPreUpdate cols row) := by
  have main : ∀ (l : List (EditDialogColumn V)) (r : Row V),
      OnPreUpdate l r = OnPreUpdate (l.filter fun x => x.editable) r := by
    intro l
    induction l with
    | nil => intro r; rfl
    | cons d rest ih =>
        intro r
        by_cases hd : d.editable = true
        · cases hv : d.Verify with
          | error a =>
              simp [OnPreUpdate, EditDialogColumn.IsEditable, hd, hv,
                List.filter_cons]
          | ok u =>
              simp [OnPreUpdate, EditDialogColumn.IsEditable, hd, hv,
                List.filter_cons, ih]
        · simp [OnPreUpdate, EditDialogColumn.IsEditable, hd,
            List.filter_cons, ih]
  refine ⟨main cols row, fun hc => ?_⟩
  simp [OnPreUpdate, EditDialogColumn.IsEditable, hc]

/-- C10: the edit action of a data list is a no-op unless exactly one item is
selected, and with a single selected index it acts on exactly that index,
subject only to the CanEditItem check. -/
theorem claim_C10_single_selection_guard {V : Type} (selected : List Nat)
    (getItem : Nat → PyObj V) (canEditItem : PyObj V → Bool) :
    (selected.length ≠ 1 →
      DataList.onEditItemCall selected getItem canEditItem = none) ∧
    (∀ i : Nat, DataList.onEditItemCall [i] getItem canEditItem =
      if canEditItem (getItem i) then some (getItem i, i) else none) := by
  constructor
  · intro h
    simp [DataList.onEditItemCall, h]
  · intro i
    simp [DataList.onEditItemCall]

/-- C6: refreshing a binding from the row leaves the row untouched and loads
the bound attribute into the widget, while committing the binding writes the
widget value to the binding's own attribute of the row and to no other
attribute. -/
theorem claim_C6_binding_frame {V : Type} (c : EditDialogColumn V)
    (row : Row V) :
    (c.SetValue row).2 = row ∧
    (c.SetValue row).1.value = row c.attrName ∧
    c.Update row c.attrName = c.value ∧
    (∀ a : AttrName, a ≠ c.attrName → c.Update row a = row a) := by
  refine ⟨rfl, rfl, ?_, ?_⟩
  · simp [EditDialogColumn.Update, setAttr]
  · intro a ha
    simp [EditDialogColumn.Update, setAttr, ha]

/-- C4: a dialog confirmation that raises nothing runs the pre-update hook,
then the data set commit, then the post-update hook, in that order and each
exactly once. -/
theorem claim_C4_commit_hook_order {V : Type}
    (cols : List (EditDialogColumn V)) (row : Row V)
    (hok : (OnOk cols row).raised = none) :
    (OnOk cols row).events =
      [DialogEvent.preUpdate, DialogEvent.update, DialogEvent.postUpdate] := by
  cases h : OnPreUpdate cols row with
  | error e =>
      exfalso
      cases e with
      | mk a r => simp [OnOk, h] at hok
  | ok r => simp [OnOk, h]

/-- C4 witness: the hook order at a concrete confirmed dialog. -/
theorem claim_C4_commit_hook_order_witness :
    (OnOk ([colNat "alpha" (some 5) true true]) rowAB).events =
      [DialogEvent.preUpdate, DialogEvent.update, DialogEvent.postUpdate] :=
  claim_C4_commit_hook_order [colNat "alpha" (some 5) true true] rowAB rfl

/-- C2: with a parent item the dialog retrieves the data set with exactly the
parent item's primary key attribute values and NoDataFound is raised exactly
when the retrieved row set does not hold exactly one row; with no parent item
a new row is inserted and no error is raised. -/
theorem claim_C2_retrieve_by_key {V : Type} (p : ParentItem V)
    (dbRetrieve : List (Option V) → List (Row V)) (newRow : Row V) :
    (EditDialogBase.Retrieve (some p) dbRetrieve newRow =
        RetrieveOutcome.noDataFound (dbRetrieve (p.pkAttrNames.map p.getattr)) ↔
      (dbRetrieve (p.pkAttrNames.map p.getattr)).length ≠ 1) ∧
    (EditDialogBase.Retrieve (some p) dbRetrieve newRow =
        RetrieveOutcome.retrieved (dbRetrieve (p.pkAttrNames.map p.getattr)) ↔
      (dbRetrieve (p.pkAttrNames.map p.getattr)).length = 1) ∧
    EditDialogBase.Retrieve none dbRetrieve newRow =
      RetrieveOutcome.inserted newRow := by
  refine ⟨?_, ?_, rfl⟩ <;>
    by_cases h : (dbRetrieve (p.pkAttrNames.map p.getattr)).length = 1 <;>
      simp [EditDialogBase.Retrieve, h]

/-- Steps of the window creation phase, in the order the lifecycle runs
them. -/
inductive LifeEvent where
  | setMinSize
  | createToolbar
  | createMenus
  | bindCloseHandler
  | onCreate
  | onLayout
  | applySizer
  | readSize
  | readPosition
  | restoreSettingsHook
deriving DecidableEq

/-- The boolean class flags and conditions governing the conditional lifecycle
steps of a container: bindClose, saveSize, savePosition (ContainerControls.py
14), whether minSize is set (ContainerControls.py 15, 17-19) and whether the
OnLayout hook returned a sizer (ContainerControls.py 31-33). -/
structure ContainerFlags where
  bindClose : Bool
  saveSize : Bool
  savePosition : Bool
  hasMinSize : Bool
  layoutReturnsSizer : Bool

/-- BaseContainer._RestoreSettings (ContainerControls.py 41-50): read the Size
setting when saveSize is set, read the Position setting when savePosition is
set, then run the RestoreSettings hook. -/
def restoreTrace (f : ContainerFlags) : List LifeEvent :=
  (if f.saveSize then [LifeEvent.readSize] else []) ++
  (if f.savePosition then [LifeEvent.readPosition] else []) ++
  [LifeEvent.restoreSettingsHook]

/-- BaseContainer._OnCreate (ContainerControls.py 27-34): bind the close
handler when bindClose is set, run the OnCreate hook, run the OnLayout hook,
apply the returned sizer when there is one, then restore settings. -/
def BaseContainer.onCreateTrace (f : ContainerFlags) : List LifeEvent :=
  (if f.bindClose then [LifeEvent.bindCloseHandler] else []) ++
  [LifeEvent.onCreate, LifeEvent.onLayout] ++
  (if f.layoutReturnsSizer then [LifeEvent.applySizer] else []) ++
  restoreTrace f

/-- Frame._OnCreate (ContainerControls.py 141-151): toolbar setup when
hasToolbar is set, menu setup when hasMenus is set, then the base create
phase. -/
def Frame.onCreateTrace (hasToolbar hasMenus : Bool) (f : ContainerFlags) :
    List LifeEvent :=
  (if hasToolbar then [LifeEvent.createToolbar] else []) ++
  (if hasMenus then [LifeEvent.createMenus] else []) ++
  BaseContainer.onCreateTrace f

/-- Container construction (ContainerControls.py 17-20 and 137-139).
BaseContainer._Initialize enforces the minimum size first when minSize is set.
Modelled from the spec: BaseControl._Initialize, which is not among this
repository's source files, then runs the create phase. -/
def BaseContainer.initTrace (f : ContainerFlags) : List LifeEvent :=
  (if f.hasMinSize then [LifeEvent.setMinSize] else []) ++
  BaseContainer.onCreateTrace f

/-- Frame construction: as container construction, with the frame create
phase. -/
def Frame.initTrace (hasToolbar hasMenus : Bool) (f : ContainerFlags) :
    List LifeEvent :=
  (if f.hasMinSize then [LifeEvent.setMinSize] else []) ++
  Frame.onCreateTrace hasToolbar hasMenus f

/-- C3: for every combination of the class flags, the lifecycle runs minimum
size enforcement (exactly when minSize is set, and first), the toolbar and
menu setup of frames (exactly per their flags, before the OnCreate hook, the
toolbar before the menus), the OnCreate hook, the OnLayout hook and the
settings restore exactly once each and in that order, with restore last and
after the geometry reads begin past OnLayout; each conditional step appears
exactly per its governing flag, and a frame without toolbar and menus runs
exactly the base container lifecycle. -/
theorem claim_C3_lifecycle_order :
    ∀ bc ss sp ms lrs ht hm : Bool,
      ((Frame.initTrace ht hm ⟨bc, ss, sp, ms, lrs⟩).count LifeEvent.onCreate = 1 ∧
       (Frame.initTrace ht hm ⟨bc, ss, sp, ms, lrs⟩).count LifeEvent.onLayout = 1 ∧
       (Frame.initTrace ht hm ⟨bc, ss, sp, ms, lrs⟩).count
          LifeEvent.restoreSettingsHook = 1) ∧
      ((Frame.initTrace ht hm ⟨bc, ss, sp, ms, lrs⟩).indexOf LifeEvent.onCreate <
        (Frame.initTrace ht hm ⟨bc, ss, sp, ms, lrs⟩).indexOf LifeEvent.onLayout ∧
       (Frame.initTrace ht hm ⟨bc, ss, sp, ms, lrs⟩).indexOf LifeEvent.onLayout <
        (Frame.initTrace ht hm ⟨bc, ss, sp, ms, lrs⟩).indexOf
          LifeEvent.restoreSettingsHook ∧
       (Frame.initTrace ht hm ⟨bc, ss, sp, ms, lrs⟩).indexOf
          LifeEvent.restoreSettingsHook + 1 =
        (Frame.initTrace ht hm ⟨bc, ss, sp, ms, lrs⟩).length) ∧
      ((LifeEvent.setMinSize ∈ Frame.initTrace ht hm ⟨bc, ss, sp, ms, lrs⟩ ↔
          ms = true) ∧
       (ms = true →
        (Frame.initTrace ht hm ⟨bc, ss, sp, ms, lrs⟩).indexOf
          LifeEvent.setMinSize = 0)) ∧
      ((LifeEvent.createToolbar ∈ Frame.initTrace ht hm ⟨bc, ss, sp, ms, lrs⟩ ↔
          ht = true) ∧
       (LifeEvent.createMenus ∈ Frame.initTrace ht hm ⟨bc, ss, sp, ms, lrs⟩ ↔
          hm = true) ∧
       (ht = true →
        (Frame.initTrace ht hm ⟨bc, ss, sp, ms, lrs⟩).indexOf
            LifeEvent.createToolbar <
          (Frame.initTrace ht hm ⟨bc, ss, sp, ms, lrs⟩).indexOf
            LifeEvent.onCreate) ∧
       (hm = true →
        (Frame.initTrace ht hm ⟨bc, ss, sp, ms, lrs⟩).indexOf
            LifeEvent.createMenus <
          (Frame.initTrace ht hm ⟨bc, ss, sp, ms, lrs⟩).indexOf
            LifeEvent.onCreate)) ∧
      ((LifeEvent.bindCloseHandler ∈ Frame.initTrace ht hm ⟨bc, ss, sp, ms, lrs⟩ ↔
          bc = true) ∧
       (LifeEvent.readSize ∈ Frame.initTrace ht hm ⟨bc, ss, sp, ms, lrs⟩ ↔
          ss = true) ∧
       (LifeEvent.readPosition ∈ Frame.initTrace ht hm ⟨bc, ss, sp, ms, lrs⟩ ↔
          sp = true) ∧
       (LifeEvent.applySizer ∈ Frame.initTrace ht hm ⟨bc, ss, sp, ms, lrs⟩ ↔
          lrs = true) ∧
       (ss = true →
        (Frame.initTrace ht hm ⟨bc, ss, sp, ms, lrs⟩).indexOf LifeEvent.onLayout <
          (Frame.initTrace ht hm ⟨bc, ss, sp, ms, lrs⟩).indexOf
            LifeEvent.readSize)) ∧
      Frame.initTrace false false ⟨bc, ss, sp, ms, lrs⟩ =
        BaseContainer.initTrace ⟨bc, ss, sp, ms, lrs⟩ := by
  decide

/-- The settings store of a window's settings namespace: a key-value map over
the structured values it holds (the Size and Position entries store geometry
tuples). -/
abbrev Settings (G : Type) := String → Option G

/-- WriteSetting of the external settings layer: write one key, leaving every
other key as it was. -/
def writeSetting {G : Type} (s : Settings G) (k : String) (v : G) :
    Settings G :=
  fun x => if x = k then some v else s x

/-- Steps of the close phase, in the order _OnClose runs them. -/
inductive CloseEvent where
  | writeSize
  | writePosition
  | saveSettingsHook
  | flushSettings
  | onCloseHook
  | skipEvent
deriving DecidableEq

/-- BaseContainer._SaveSettings (ContainerControls.py 52-59): write the Size
setting when saveSize is set, write the Position setting when savePosition is
set, run the SaveSettings hook, flush the settings store. size and position
stand for GetSizeTuple and GetPositionTuple of the window. -/
def BaseContainer.saveSettingsRun {G : Type} (saveSize savePosition : Bool)
    (size position : G) (s : Settings G) : Settings G × List CloseEvent :=
  let p1 := if saveSize then (writeSetting s "Size" size, [CloseEvent.writeSize])
            else (s, ([] : List CloseEvent))
  let p2 := if savePosition then
              (writeSetting p1.1 "Position" position,
               p1.2 ++ [CloseEvent.writePosition])
            else p1
  (p2.1, p2.2 ++ [CloseEvent.saveSettingsHook, CloseEvent.flushSettings])

/-- BaseContainer._OnClose (ContainerControls.py 22-25): save the settings,
fire the OnClose hook, then let the close event propagate. -/
def BaseContainer.onCloseRun {G : Type} (saveSize savePosition : Bool)
    (size position : G) (s : Settings G) : Settings G × List CloseEvent :=
  let p := BaseContainer.saveSettingsRun saveSize savePosition size position s
  (p.1, p.2 ++ [CloseEvent.onCloseHook, CloseEvent.skipEvent])

/-- Geometry reads of BaseContainer._RestoreSettings (ContainerControls.py
41-49): the size applied by SetSize (the Size setting, defaulting to minSize)
and the position applied by SetPosition (the Position setting); none when
nothing is applied. -/
def BaseContainer.restoreGeometry {G : Type} (saveSize savePosition : Bool)
    (minSize : Option G) (s : Settings G) : Option G × Option G :=
  ((if saveSize then
      (match s "Size" with
       | some v => some v
       | none => minSize)
    else none),
   (if savePosition then s "Position" else none))

/-- C7: closing a window whose saveSize and savePosition flags are set stores
its geometry under the Size and Position keys of its settings namespace, the
close hook firing only after the writes; and restore at creation reads the
very keys just written, yielding the persisted geometry back. -/
theorem claim_C7_geometry_persistence {G : Type} (s : Settings G)
    (size position : G) (m : Option G) :
    (BaseContainer.onCloseRun true true size position s).1 "Size" = some size ∧
    (BaseContainer.onCloseRun true true size position s).1 "Position" =
      some position ∧
    (BaseContainer.onCloseRun true true size position s).2 =
      [CloseEvent.writeSize, CloseEvent.writePosition,
       CloseEvent.saveSettingsHook, CloseEvent.flushSettings,
       CloseEvent.onCloseHook, CloseEvent.skipEvent] ∧
    BaseContainer.restoreGeometry true true m
        (BaseContainer.onCloseRun true true size position s).1 =
      (some size, some position) := by
  refine ⟨?_, ?_, rfl, ?_⟩ <;>
    simp [BaseContainer.onCloseRun, BaseContainer.saveSettingsRun,
      BaseContainer.restoreGeometry, writeSetting]

/-- DataListPanel setattr on a list item (DataEditors.py 195): write one
attribute of the item object. -/
def setObjAttr {V : Type} (o : PyObj V) (a : AttrName) (v : Option V) :
    PyObj V :=
  { o with getattr := fun x => if x = a then v else o.getattr x }

/-- DataListPanel._UpdateListItem, edit form with an item index (DataEditors.py
189-198): for each attribute the item carries that the edited row has, write
the row's value into the target row of the list data set. -/
def updateListItemEdit {V : Type} (itemAttrNames : List AttrName)
    (row : PyObj V) (target : Row V) : Row V :=
  itemAttrNames.foldl
    (fun r a => if a ∈ row.attrNames then setAttr r a (row.getattr a) else r)
    target

/-- DataListPanel._UpdateListItem, insert form without an item index
(DataEditors.py 189-198): for each attribute the item carries that the new row
has, setattr copies the row's value onto the item. -/
def updateListItemInsert {V : Type} (item : PyObj V) (row : PyObj V) :
    PyObj V :=
  item.attrNames.foldl
    (fun o a => if a ∈ row.attrNames then setObjAttr o a (row.getattr a) else o)
    item

/-- State a DataListPanel owns for editing: the list data set's rows by row
handle, and how often the visible list was refreshed. -/
structure ListPanelState (V : Type) where
  rows : Nat → Row V
  refreshCount : Nat

/-- DataListPanel.EditItem with DataListPanel._OnEditItem (DataEditors.py
167-172 and 215-221): when the modal dialog returns OK, the edited row
(dialog.dataSet.rows[0]) is merged into the list data set at the selected
item's row handle and the visible list is refreshed; otherwise nothing
changes. confirmed abstracts ShowModal returning wx.ID_OK. -/
def DataListPanel.EditItem {V : Type} (confirmed : Bool) (dialogRow : PyObj V)
    (itemAttrNames : List AttrName) (handle : Nat) (st : ListPanelState V) :
    ListPanelState V :=
  if confirmed then
    { rows := fun h =>
        if h = handle then
          updateListItemEdit itemAttrNames dialogRow (st.rows h)
        else st.rows h,
      refreshCount := st.refreshCount + 1 }
  else st

/-- State a DataListPanel owns for inserting: the list items, and how often
the visible list was refreshed. -/
structure InsertState (V : Type) where
  items : List (PyObj V)
  refreshCount : Nat

/-- DataListPanel.InsertItems with DataListPanel._OnInsertItems
(DataEditors.py 174-180 and 227-235): when the modal dialog returns OK, a
fresh item for the created row is appended, the row's attributes carried by
the item are copied onto it and the visible list is refreshed; otherwise
nothing changes. Modelled from the spec where List.AppendItem is not among
this repository's source files: AppendItem appends the fresh item (freshItem)
to the list for the new row and returns it. -/
def DataListPanel.InsertItems {V : Type} (confirmed : Bool)
    (dialogRow : PyObj V) (freshItem : PyObj V) (st : InsertState V) :
    InsertState V :=
  if confirmed then
    { items := st.items ++ [updateListItemInsert freshItem dialogRow],
      refreshCount := st.refreshCount + 1 }
  else st

/-- Pointwise reading of the edit form of _UpdateListItem: an attribute gets
the edited row's value exactly when the item carries it and the row has it,
and stays as it was otherwise. -/
theorem updateListItemEdit_attr {V : Type} (names : List AttrName)
    (row : PyObj V) (target : Row V) (a : AttrName) :
    updateListItemEdit names row target a =
      if a ∈ names ∧ a ∈ row.attrNames then row.getattr a else target a := by
  induction names generalizing target with
  | nil => simp [updateListItemEdit]
  | cons b rest ih =>
      show updateListItemEdit rest row
        (if b ∈ row.attrNames then setAttr target b (row.getattr b)
         else target) a = _
      rw [ih]
      by_cases haw : a ∈ row.attrNames
      · by_cases har : a ∈ rest
        · simp [har, haw]
        · by_cases hab : a = b
          · subst hab
            simp [har, haw, setAttr]
          · by_cases hb : b ∈ row.attrNames
            · simp [har, haw, hab, hb, setAttr]
            · simp [har, haw, hab, hb, setAttr]
      · by_cases hb : b ∈ row.attrNames
        · by_cases hab : a = b
          · subst hab
            exact absurd hb haw
          · simp [haw, hab, hb, setAttr]
        · simp [haw, hb, setAttr]

/-- The insert form of _UpdateListItem keeps the item's attribute list and
equals the edit form on the item's values. -/
theorem updateListItemInsert_spec {V : Type} (item : PyObj V) (row : PyObj V) :
    (updateListItemInsert item row).attrNames = item.attrNames ∧
    (updateListItemInsert item row).getattr =
      updateListItemEdit item.attrNames row item.getattr := by
  have main : ∀ (names : List AttrName) (o : PyObj V),
      ((names.foldl
          (fun o a =>
            if a ∈ row.attrNames then setObjAttr o a (row.getattr a) else o)
          o).attrNames = o.attrNames ∧
       (names.foldl
          (fun o a =>
            if a ∈ row.attrNames then setObjAttr o a (row.getattr a) else o)
          o).getattr = updateListItemEdit names row o.getattr) := by
    intro names
    induction names with
    | nil => intro o; exact ⟨rfl, rfl⟩
    | cons b rest ih =>
        intro o
        constructor
        · show (List.foldl _
              (if b ∈ row.attrNames then setObjAttr o b (row.getattr b) else o)
              rest).attrNames = o.attrNames
          by_cases hb : b ∈ row.attrNames
          · rw [if_pos hb, (ih (setObjAttr o b (row.getattr b))).1]
            rfl
          · rw [if_neg hb, (ih o).1]
        · show (List.foldl _
              (if b ∈ row.attrNames then setObjAttr o b (row.getattr b) else o)
              rest).getattr =
            updateListItemEdit rest row
              (if b ∈ row.attrNames then setAttr o.getattr b (row.getattr b)
               else o.getattr)
          by_cases hb : b ∈ row.attrNames
          · rw [if_pos hb, if_pos hb, (ih (setObjAttr o b (row.getattr b))).2]
            rfl
          · rw [if_neg hb, if_neg hb, (ih o).2]
  exact main item.attrNames item

/-- C8: on a confirmed edit every attribute the list item carries that the
edited row has is written back into the list data set at the item's row
handle, every other handle is untouched and the visible list is refreshed; on
a confirmed insert the appended item receives exactly those attributes and the
visible list is refreshed; an unconfirmed dialog changes nothing on either
path. -/
theorem claim_C8_merge_back_on_ok {V : Type} (dialogRow : PyObj V)
    (itemAttrNames : List AttrName) (handle : Nat) (st : ListPanelState V)
    (freshItem : PyObj V) (ist : InsertState V) :
    (∀ a : AttrName,
      (DataListPanel.EditItem true dialogRow itemAttrNames handle st).rows
          handle a =
        if a ∈ itemAttrNames ∧ a ∈ dialogRow.attrNames then dialogRow.getattr a
        else st.rows handle a) ∧
    (∀ h : Nat, h ≠ handle →
      (DataListPanel.EditItem true dialogRow itemAttrNames handle st).rows h =
        st.rows h) ∧
    (DataListPanel.EditItem true dialogRow itemAttrNames handle st).refreshCount =
      st.refreshCount + 1 ∧
    DataListPanel.EditItem false dialogRow itemAttrNames handle st = st ∧
    (DataListPanel.InsertItems true dialogRow freshItem ist).items =
      ist.items ++ [updateListItemInsert freshItem dialogRow] ∧
    (∀ a : AttrName,
      (updateListItemInsert freshItem dialogRow).getattr a =
        if a ∈ freshItem.attrNames ∧ a ∈ dialogRow.attrNames then
          dialogRow.getattr a
        else freshItem.getattr a) ∧
    (DataListPanel.InsertItems true dialogRow freshItem ist).refreshCount =
      ist.refreshCount + 1 ∧
    DataListPanel.InsertItems false dialogRow freshItem ist = ist := by
  refine ⟨?_, ?_, rfl, rfl, rfl, ?_, rfl, rfl⟩
  · intro a
    simp [DataListPanel.EditItem, updateListItemEdit_attr]
  · intro h hne
    simp [DataListPanel.EditItem, hne]
  · intro a
    rw [(updateListItemInsert_spec freshItem dialogRow).2]
    exact updateListItemEdit_attr _ _ _ _

/-- A successful pre-update leaves every attribute no column binds as it
was. -/
theorem OnPreUpdate_ok_untouched {V : Type} (cols : List (EditDialogColumn V)) :
    ∀ (row rowAfter : Row V), OnPreUpdate cols row = Except.ok rowAfter →
      ∀ a : AttrName, a ∉ cols.map (fun c => c.attrName) → rowAfter a = row a := by
  induction cols with
  | nil =>
      intro row rowAfter hok a ha
      simp only [OnPreUpdate, Except.ok.injEq] at hok
      rw [← hok]
  | cons d rest ih =>
      intro row rowAfter hok a ha
      simp only [List.map_cons, List.mem_cons, not_or] at ha
      obtain ⟨had, harest⟩ := ha
      by_cases hd : d.IsEditable = true
      · cases hv : d.Verify with
        | error e => simp [OnPreUpdate, hd, hv] at hok
        | ok u =>
            simp only [OnPreUpdate, hd, hv, if_true] at hok
            rw [ih (d.Update row) rowAfter hok a harest]
            simp [EditDialogColumn.Update, setAttr, had]
      · simp only [OnPreUpdate, hd, if_false, Bool.false_eq_true, ite_false] at hok
        exact ih row rowAfter hok a harest

/-- A successful pre-update has written each editable column's widget value
under its attribute name (the attribute names being pairwise distinct), and
its editable required columns all held a value. -/
theorem OnPreUpdate_ok_writes {V : Type} (cols : List (EditDialogColumn V)) :
    ∀ (row rowAfter : Row V),
      (cols.map fun c => c.attrName).Nodup →
      OnPreUpdate cols row = Except.ok rowAfter →
      ∀ c ∈ cols, c.editable = true →
        rowAfter c.attrName = c.value ∧ (c.required = true → c.value ≠ none) := by
  induction cols with
  | nil =>
      intro row rowAfter hnd hok c hc
      simp at hc
  | cons d rest ih =>
      intro row rowAfter hnd hok c hc hced
      simp only [List.map_cons, List.nodup_cons] at hnd
      obtain ⟨hdnotin, hndrest⟩ := hnd
      by_cases hd : d.IsEditable = true
      · cases hv : d.Verify with
        | error e => simp [OnPreUpdate, hd, hv] at hok
        | ok u =>
            simp only [OnPreUpdate, hd, hv, if_true] at hok
            rcases List.mem_cons.mp hc with hcd | hcr
            · subst hcd
              constructor
              · rw [OnPreUpdate_ok_untouched rest (c.Update row) rowAfter hok
                  c.attrName hdnotin]
                simp [EditDialogColumn.Update, setAttr]
              · intro hreq hval
                simp [EditDialogColumn.Verify, hreq, hval] at hv
            · exact ih (d.Update row) rowAfter hndrest hok c hcr hced
      · rcases List.mem_cons.mp hc with hcd | hcr
        · subst hcd
          exact absurd hced (by simpa [EditDialogColumn.IsEditable] using hd)
        · simp only [OnPreUpdate, hd, if_false, Bool.false_eq_true, ite_false] at hok
          exact ih row rowAfter hndrest hok c hcr hced

/-- C5: refresh loads each binding's widget with the bound attribute's row
value, keeping the binding's attribute name; commit, when it succeeds, has
validated the required editable bindings (each held a value) and has written
each editable binding's widget value into the result set under the binding's
attribute name, the attribute names being pairwise distinct. -/
theorem claim_C5_refresh_and_commit {V : Type}
    (cols : List (EditDialogColumn V)) (row rowAfter : Row V)
    (hnd : (cols.map fun c => c.attrName).Nodup)
    (hok : OnPreUpdate cols row = Except.ok rowAfter) :
    (((retrieveColumns cols row).map fun c => c.value) =
        cols.map fun c => row c.attrName) ∧
    (((retrieveColumns cols row).map fun c => c.attrName) =
        cols.map fun c => c.attrName) ∧
    ∀ c ∈ cols, c.editable = true →
      rowAfter c.attrName = c.value ∧ (c.required = true → c.value ≠ none) := by
  refine ⟨?_, ?_, fun c hc hced =>
    OnPreUpdate_ok_writes cols row rowAfter hnd hok c hc hced⟩
  · simp [retrieveColumns, EditDialogColumn.SetValue, List.map_map,
      Function.comp]
  · simp [retrieveColumns, EditDialogColumn.SetValue, List.map_map,
      Function.comp]

/-- The result set state after the commit has written one editable column with
widget value 5 into the concrete row. -/
def rowAlphaNew : Row Nat := setAttr rowAB "alpha" (some 5)

/-- C5 witness: refresh and a succeeding commit at one concrete editable
required binding holding a value. -/
theorem claim_C5_refresh_and_commit_witness :
    (((retrieveColumns [colNat "alpha" (some 5) true true] rowAB).map
        fun c => c.value) =
      [colNat "alpha" (some 5) true true].map fun c => rowAB c.attrName) ∧
    (((retrieveColumns [colNat "alpha" (some 5) true true] rowAB).map
        fun c => c.attrName) =
      [colNat "alpha" (some 5) true true].map fun c => c.attrName) ∧
    ∀ c ∈ [colNat "alpha" (some 5) true true], c.editable = true →
      rowAlphaNew c.attrName = c.value ∧ (c.required = true → c.value ≠ none) :=
  claim_C5_refresh_and_commit [colNat "alpha" (some 5) true true] rowAB
    rowAlphaNew (by decide) rfl

/-- The data set writes the columns before the offending one have already
made when a commit aborts: each editable column's Update, in column order. -/
def applyEditable {V : Type} (cols : List (EditDialogColumn V)) (row : Row V) :
    Row V :=
  cols.foldl (fun r c => if c.IsEditable then c.Update r else r) row

/-- When some editable column is required with an empty field, pre-update
stops at the first such column: the error focuses that column's field, and the
data set holds the writes of the editable columns before it. -/
theorem OnPreUpdate_first_required_empty {V : Type}
    (cols : List (EditDialogColumn V)) :
    ∀ (row : Row V) (c0 : EditDialogColumn V),
      cols.find? (fun c => c.editable && c.required && c.value.isNone) =
        some c0 →
      OnPreUpdate cols row =
        Except.error (c0.attrName,
          applyEditable
            (cols.takeWhile fun c => !(c.editable && c.required && c.value.isNone))
            row) := by
  induction cols with
  | nil => intro row c0 h; simp at h
  | cons d rest ih =>
      intro row c0 h
      by_cases hp : (d.editable && d.required && d.value.isNone) = true
      · simp only [List.find?, hp] at h
        have hc0 : d = c0 := by simpa using h
        subst hc0
        simp only [List.takeWhile, hp, Bool.not_true]
        have hed : d.editable = true := by
          simp [Bool.and_eq_true] at hp
          exact hp.1.1
        have hreq : d.required = true := by
          simp [Bool.and_eq_true] at hp
          exact hp.1.2
        have hnone : d.value.isNone = true := by
          simp [Bool.and_eq_true] at hp
          rw [hp.2]
          rfl
        simp [OnPreUpdate, EditDialogColumn.IsEditable, hed,
          EditDialogColumn.Verify, hreq, hnone, applyEditable]
      · have hpf : (d.editable && d.required && d.value.isNone) = false := by
          cases hb : (d.editable && d.required && d.value.isNone)
          · rfl
          · exact absurd hb hp
        simp only [List.find?, hpf] at h
        simp only [List.takeWhile, hpf, Bool.not_false]
        have happ : ∀ (l : List (EditDialogColumn V)) (r : Row V),
            applyEditable (d :: l) r =
              applyEditable l (if d.IsEditable then d.Update r else r) :=
          fun l r => rfl
        rw [happ]
        by_cases hed : d.IsEditable = true
        · have hed' : d.editable = true := by
            simpa [EditDialogColumn.IsEditable] using hed
          have hrn : (d.required && d.value.isNone) = false := by
            cases hb : (d.required && d.value.isNone)
            · rfl
            · exact absurd (by simp [hed', hb]) hp
          have hverify : d.Verify = Except.ok () := by
            by_cases hreq : d.required = true
            · have hnone : d.value.isNone = false := by
                cases hn : d.value.isNone
                · rfl
                · rw [hreq, hn] at hrn
                  simp at hrn
              simp [EditDialogColumn.Verify, hreq, hnone]
            · simp [EditDialogColumn.Verify, hreq]
          rw [if_pos hed]
          simp only [OnPreUpdate, hed, hverify, if_true]
          exact ih (d.Update row) c0 h
        · rw [if_neg hed]
          simp only [OnPreUpdate, hed, if_false, Bool.false_eq_true, ite_false]
          exact ih row c0 h

/-- C1 counterexample: first, with the bindings alpha (editable, widget value
9) and beta (editable, required, empty field), the commit raises with beta
focused and the data set commit step never runs, yet the result set row is
already changed at alpha, against the claim that it is left unchanged; second,
a required binding whose field is not editable (beta, required, empty) raises
nothing at all and the commit runs to completion, against the claim that any
required binding with an empty field makes the commit raise and abort. -/
theorem claim_C1_counterexample :
    ((OnOk [colNat "alpha" (some 9) true false, colNat "beta" none true true]
        rowAB).raised = some "beta" ∧
     DialogEvent.update ∉
       (OnOk [colNat "alpha" (some 9) true false, colNat "beta" none true true]
         rowAB).events ∧
     (OnOk [colNat "alpha" (some 9) true false, colNat "beta" none true true]
        rowAB).row "alpha" = some 9 ∧
     rowAB "alpha" = some 1) ∧
    ((OnOk [colNat "beta" none false true] rowAB).raised = none ∧
     DialogEvent.update ∈ (OnOk [colNat "beta" none false true] rowAB).events) := by
  decide

/-- C1 amended: when some required column binding bound to an editable field
holds an empty value, the commit raises the required-field-empty error, focus
is set to the first such offending field, the data set's Update step is not
invoked and post-update never runs; the editable columns before the offending
one, however, have already written their widget values into the row, so the
result set is not in general left unchanged. -/
theorem claim_C1_amended {V : Type} (cols : List (EditDialogColumn V))
    (row : Row V) (c0 : EditDialogColumn V)
    (hfind : cols.find? (fun c => c.editable && c.required && c.value.isNone) =
      some c0) :
    (OnOk cols row).raised = some c0.attrName ∧
    (OnOk cols row).events = [DialogEvent.preUpdate] ∧
    DialogEvent.update ∉ (OnOk cols row).events ∧
    (OnOk cols row).row =
      applyEditable
        (cols.takeWhile fun c => !(c.editable && c.required && c.value.isNone))
        row := by
  have h := OnPreUpdate_first_required_empty cols row c0 hfind
  refine ⟨?_, ?_, ?_, ?_⟩ <;> simp [OnOk, h]

/-- C1 amended witness: the amended behaviour at the concrete two-binding
dialog of the counterexample. -/
theorem claim_C1_amended_witness :
    (OnOk [colNat "alpha" (some 9) true false, colNat "beta" none true true]
        rowAB).raised =
      some (colNat "beta" none true true).attrName ∧
    (OnOk [colNat "alpha" (some 9) true false, colNat "beta" none true true]
        rowAB).events = [DialogEvent.preUpdate] ∧
    DialogEvent.update ∉
      (OnOk [colNat "alpha" (some 9) true false, colNat "beta" none true true]
        rowAB).events ∧
    (OnOk [colNat "alpha" (some 9) true false, colNat "beta" none true true]
        rowAB).row =
      applyEditable
        ([colNat "alpha" (some 9) true false,
          colNat "beta" none true true].takeWhile
          fun c => !(c.editable && c.required && c.value.isNone))
        rowAB :=
  claim_C1_amended
    [colNat "alpha" (some 9) true false, colNat "beta" none true true]
    rowAB (colNat "beta" none true true) rfl

end CeGUI
